import Mathlib

/-!
Verification of the theme-switcher module (`assets/js/theme-switcher.js`).

The module is a three-state (light/dark/auto) theme toggle over a small
piece of DOM state. We embed it shallowly: the module-level variables
(`currentTheme`, `systemPrefersDark`, the two DOM handles, the body's
class list, and the localStorage slot) become a state record, and each
function of the source becomes a Lean function on that record.
-/

namespace ThemeSwitcher

/-- The three theme modes, `THEMES` in the source
(`LIGHT = "light"`, `DARK = "dark"`, `AUTO = "auto"`). -/
inductive Theme where
  | light
  | dark
  | auto
deriving DecidableEq, Repr

/-- The string serialisation of a theme, as stored in localStorage. -/
def Theme.toStr : Theme → String
  | .light => "light"
  | .dark => "dark"
  | .auto => "auto"

/-- `Object.values(THEMES)` from the source: the three valid stored literals. -/
def themeValues : List String := ["light", "dark", "auto"]

/-- Parse a stored string back into a theme; `none` for anything that is
not one of the three literals. -/
def strToTheme (v : String) : Option Theme :=
  if v = "light" then some .light
  else if v = "dark" then some .dark
  else if v = "auto" then some .auto
  else none

/-- `classList.remove(c)`: removes every occurrence of the class. -/
def classListRemove (cs : List String) (c : String) : List String :=
  cs.filter (fun x => x ≠ c)

/-- `classList.add(c)`: appends the class unless already present
(DOMTokenList keeps classes unique). -/
def classListAdd (cs : List String) (c : String) : List String :=
  if c ∈ cs then cs else cs ++ [c]

/-- The toggle control element: its `title` and `aria-label` attributes
(absent until first set). -/
structure SwitcherEl where
  title : Option String
  ariaLabel : Option String
deriving DecidableEq, Repr

/-- The localStorage slot for key `"preferred-theme"`. `failing = true`
models the environment where `getItem` / `setItem` throw (storage
disabled, quota exceeded). -/
structure Storage where
  preferredTheme : Option String
  failing : Bool
deriving DecidableEq, Repr

/-- The module state: the module-level variables of the source together
with the DOM surface it reads and writes. `themeIcon = none` and
`themeSwitcher = none` model the unset handles (element not found). -/
structure ThemeState where
  currentTheme : Theme
  systemPrefersDark : Bool
  bodyClasses : List String
  themeIcon : Option (List String)
  themeSwitcher : Option SwitcherEl
  storage : Storage
deriving DecidableEq, Repr

/-- The transition on `currentTheme` performed by the `switch` in
`toggleTheme`: AUTO goes to LIGHT if the system prefers dark and to DARK
otherwise; LIGHT goes to DARK; DARK goes back to AUTO. -/
def nextOf : Theme → Bool → Theme
  | .auto, sd => if sd then .light else .dark
  | .light, _ => .dark
  | .dark, _ => .auto

/-- The effective theme as computed inline in `applyTheme` and
`getCurrentTheme`: AUTO resolves via the system preference, a manual
mode stands for itself. -/
def effectiveOf : Theme → Bool → Theme
  | .auto, sd => if sd then .dark else .light
  | t, _ => t

/-- `loadThemePreference()`: reads the stored value; adopts it only when
it is truthy and one of the three literals; a throwing store is caught
and only a warning logged. -/
def loadThemePreference (s : ThemeState) : ThemeState :=
  if s.storage.failing then s
  else
    match s.storage.preferredTheme with
    | some saved =>
        if saved ≠ "" ∧ saved ∈ themeValues then
          match strToTheme saved with
          | some t => { s with currentTheme := t }
          | none => s
        else s
    | none => s

/-- `saveThemePreference()`: writes the serialised current theme; a
throwing store is caught and only a warning logged. -/
def saveThemePreference (s : ThemeState) : ThemeState :=
  if s.storage.failing then s
  else { s with storage := { s.storage with preferredTheme := some s.currentTheme.toStr } }

/-- `updateThemeIcon(effectiveTheme)`: returns early when the icon
handle is unset; otherwise removes the three icon classes and adds the
one matching the state (AUTO takes priority over the effective theme). -/
def updateThemeIcon (s : ThemeState) (effectiveTheme : Theme) : ThemeState :=
  match s.themeIcon with
  | none => s
  | some icon =>
      let icon := classListRemove (classListRemove (classListRemove icon "fa-moon") "fa-sun") "fa-adjust"
      let icon :=
        if s.currentTheme = .auto then classListAdd icon "fa-adjust"
        else if effectiveTheme = .dark then classListAdd icon "fa-sun"
        else classListAdd icon "fa-moon"
      { s with themeIcon := some icon }

/-- The tooltip text chosen by the `switch` in `updateThemeTooltip`. -/
def themeTooltip : Theme → String
  | .auto => "Switch to light mode"
  | .light => "Switch to dark mode"
  | .dark => "Switch to auto mode"

/-- `updateThemeTooltip()`: returns early when the switcher handle is
unset; otherwise sets both `title` and `aria-label` to the tooltip. -/
def updateThemeTooltip (s : ThemeState) : ThemeState :=
  match s.themeSwitcher with
  | none => s
  | some _ =>
      let tooltip := themeTooltip s.currentTheme
      { s with themeSwitcher := some { title := some tooltip, ariaLabel := some tooltip } }

/-- `applyTheme()`: removes both theme classes from the body, computes
the effective theme, adds the matching class, then refreshes icon and
tooltip. -/
def applyTheme (s : ThemeState) : ThemeState :=
  let body := classListRemove (classListRemove s.bodyClasses "manual-light") "manual-dark"
  let effectiveTheme : Theme :=
    if s.currentTheme = .auto then (if s.systemPrefersDark then .dark else .light)
    else s.currentTheme
  let body :=
    if effectiveTheme = .dark then classListAdd body "manual-dark"
    else classListAdd body "manual-light"
  updateThemeTooltip (updateThemeIcon { s with bodyClasses := body } effectiveTheme)

/-- `toggleTheme()`: advances `currentTheme` by the `switch`, then
persists and re-applies. -/
def toggleTheme (s : ThemeState) : ThemeState :=
  let s' : ThemeState :=
    match s.currentTheme with
    | .auto => { s with currentTheme := if s.systemPrefersDark then .light else .dark }
    | .light => { s with currentTheme := .dark }
    | .dark => { s with currentTheme := .auto }
  applyTheme (saveThemePreference s')

/-- `handleSystemThemeChange(e)`: records the new system preference and
re-applies only when the user has not set a manual preference. -/
def handleSystemThemeChange (s : ThemeState) (eMatches : Bool) : ThemeState :=
  let s := { s with systemPrefersDark := eMatches }
  if s.currentTheme = .auto then applyTheme s else s

/-- `getCurrentTheme()`: the snapshot `(current, effective)`. -/
def getCurrentTheme (s : ThemeState) : Theme × Theme :=
  (s.currentTheme,
   if s.currentTheme = .auto then (if s.systemPrefersDark then .dark else .light)
   else s.currentTheme)

/-- The environment `init()` runs in: which DOM handles resolve, whether
`window.matchMedia` exists and what it reports, the page body's classes,
and the persistence store. -/
structure InitEnv where
  switcherFound : Bool
  iconFound : Bool
  switcherAttrs : SwitcherEl
  iconClasses : List String
  hasMatchMedia : Bool
  mediaMatches : Bool
  bodyClasses : List String
  storage : Storage
deriving DecidableEq, Repr

/-- The observable outcome of `init()`: the resulting module state plus
whether a warning was logged, whether the system-preference change
signal was subscribed, and whether the click/keydown listeners were
attached. -/
structure InitResult where
  state : ThemeState
  warned : Bool
  subscribedToSystem : Bool
  listenersAttached : Bool
deriving DecidableEq, Repr

/-- The module state as first created: `currentTheme = AUTO`,
`systemPrefersDark = false`, both handles unset. -/
def initialState (env : InitEnv) : ThemeState :=
  { currentTheme := .auto
    systemPrefersDark := false
    bodyClasses := env.bodyClasses
    themeIcon := none
    themeSwitcher := none
    storage := env.storage }

/-- `init()` (after the document is ready): resolves the two DOM
handles (the icon lookup is guarded by optional chaining on the
switcher), aborts with a warning when either is missing, otherwise
queries and subscribes to the system preference if the capability
exists, loads the persisted preference, applies the theme, and attaches
the listeners. -/
def init (env : InitEnv) : InitResult :=
  let s := initialState env
  let s := { s with
    themeSwitcher := if env.switcherFound then some env.switcherAttrs else none
    themeIcon := if env.switcherFound && env.iconFound then some env.iconClasses else none }
  if s.themeSwitcher = none ∨ s.themeIcon = none then
    { state := s, warned := true, subscribedToSystem := false, listenersAttached := false }
  else
    let s := if env.hasMatchMedia then { s with systemPrefersDark := env.mediaMatches } else s
    let s := loadThemePreference s
    let s := applyTheme s
    { state := s, warned := false, subscribedToSystem := env.hasMatchMedia,
      listenersAttached := true }

/-! ### Helper lemmas about the class-list operations -/

theorem mem_classListRemove {cs : List String} {c d : String} :
    d ∈ classListRemove cs c ↔ d ∈ cs ∧ d ≠ c := by
  simp [classListRemove]

theorem mem_classListAdd {cs : List String} {c d : String} :
    d ∈ classListAdd cs c ↔ d ∈ cs ∨ d = c := by
  unfold classListAdd
  split
  · constructor
    · exact fun h => Or.inl h
    · rintro (h | rfl) <;> assumption
  · simp

theorem not_mem_classListRemove_self {cs : List String} {c : String} :
    c ∉ classListRemove cs c := by
  simp [mem_classListRemove]

/-! ### Field preservation lemmas for the update functions -/

theorem updateThemeIcon_currentTheme (s : ThemeState) (e : Theme) :
    (updateThemeIcon s e).currentTheme = s.currentTheme := by
  cases h : s.themeIcon <;> simp [updateThemeIcon, h]

theorem updateThemeIcon_systemPrefersDark (s : ThemeState) (e : Theme) :
    (updateThemeIcon s e).systemPrefersDark = s.systemPrefersDark := by
  cases h : s.themeIcon <;> simp [updateThemeIcon, h]

theorem updateThemeIcon_bodyClasses (s : ThemeState) (e : Theme) :
    (updateThemeIcon s e).bodyClasses = s.bodyClasses := by
  cases h : s.themeIcon <;> simp [updateThemeIcon, h]

theorem updateThemeIcon_themeSwitcher (s : ThemeState) (e : Theme) :
    (updateThemeIcon s e).themeSwitcher = s.themeSwitcher := by
  cases h : s.themeIcon <;> simp [updateThemeIcon, h]

theorem updateThemeIcon_storage (s : ThemeState) (e : Theme) :
    (updateThemeIcon s e).storage = s.storage := by
  cases h : s.themeIcon <;> simp [updateThemeIcon, h]

theorem updateThemeIcon_of_none (s : ThemeState) (e : Theme) (h : s.themeIcon = none) :
    updateThemeIcon s e = s := by
  simp [updateThemeIcon, h]

theorem updateThemeTooltip_currentTheme (s : ThemeState) :
    (updateThemeTooltip s).currentTheme = s.currentTheme := by
  cases h : s.themeSwitcher <;> simp [updateThemeTooltip, h]

theorem updateThemeTooltip_systemPrefersDark (s : ThemeState) :
    (updateThemeTooltip s).systemPrefersDark = s.systemPrefersDark := by
  cases h : s.themeSwitcher <;> simp [updateThemeTooltip, h]

theorem updateThemeTooltip_bodyClasses (s : ThemeState) :
    (updateThemeTooltip s).bodyClasses = s.bodyClasses := by
  cases h : s.themeSwitcher <;> simp [updateThemeTooltip, h]

theorem updateThemeTooltip_themeIcon (s : ThemeState) :
    (updateThemeTooltip s).themeIcon = s.themeIcon := by
  cases h : s.themeSwitcher <;> simp [updateThemeTooltip, h]

theorem updateThemeTooltip_storage (s : ThemeState) :
    (updateThemeTooltip s).storage = s.storage := by
  cases h : s.themeSwitcher <;> simp [updateThemeTooltip, h]

theorem updateThemeTooltip_of_none (s : ThemeState) (h : s.themeSwitcher = none) :
    updateThemeTooltip s = s := by
  simp [updateThemeTooltip, h]

theorem saveThemePreference_currentTheme (s : ThemeState) :
    (saveThemePreference s).currentTheme = s.currentTheme := by
  unfold saveThemePreference; split <;> rfl

theorem saveThemePreference_systemPrefersDark (s : ThemeState) :
    (saveThemePreference s).systemPrefersDark = s.systemPrefersDark := by
  unfold saveThemePreference; split <;> rfl

theorem saveThemePreference_bodyClasses (s : ThemeState) :
    (saveThemePreference s).bodyClasses = s.bodyClasses := by
  unfold saveThemePreference; split <;> rfl

theorem saveThemePreference_themeIcon (s : ThemeState) :
    (saveThemePreference s).themeIcon = s.themeIcon := by
  unfold saveThemePreference; split <;> rfl

theorem saveThemePreference_themeSwitcher (s : ThemeState) :
    (saveThemePreference s).themeSwitcher = s.themeSwitcher := by
  unfold saveThemePreference; split <;> rfl

theorem saveThemePreference_failing (s : ThemeState) :
    (saveThemePreference s).storage.failing = s.storage.failing := by
  unfold saveThemePreference; split <;> rfl

theorem saveThemePreference_stored (s : ThemeState) (h : s.storage.failing = false) :
    (saveThemePreference s).storage.preferredTheme = some s.currentTheme.toStr := by
  simp [saveThemePreference, h]

/-! ### Characterisation of `applyTheme` -/

theorem effectiveOf_eq (t : Theme) (sd : Bool) :
    effectiveOf t sd = if t = .auto then (if sd then .dark else .light) else t := by
  cases t <;> simp [effectiveOf]

theorem applyTheme_currentTheme (s : ThemeState) :
    (applyTheme s).currentTheme = s.currentTheme := by
  simp [applyTheme, updateThemeTooltip_currentTheme, updateThemeIcon_currentTheme]

theorem applyTheme_systemPrefersDark (s : ThemeState) :
    (applyTheme s).systemPrefersDark = s.systemPrefersDark := by
  simp [applyTheme, updateThemeTooltip_systemPrefersDark, updateThemeIcon_systemPrefersDark]

theorem applyTheme_storage (s : ThemeState) :
    (applyTheme s).storage = s.storage := by
  simp [applyTheme, updateThemeTooltip_storage, updateThemeIcon_storage]

theorem applyTheme_bodyClasses (s : ThemeState) :
    (applyTheme s).bodyClasses =
      (if effectiveOf s.currentTheme s.systemPrefersDark = Theme.dark
       then classListAdd (classListRemove (classListRemove s.bodyClasses "manual-light") "manual-dark") "manual-dark"
       else classListAdd (classListRemove (classListRemove s.bodyClasses "manual-light") "manual-dark") "manual-light") := by
  rw [effectiveOf_eq]
  simp only [applyTheme, updateThemeTooltip_bodyClasses, updateThemeIcon_bodyClasses]

theorem applyTheme_dark_mem (s : ThemeState) :
    "manual-dark" ∈ (applyTheme s).bodyClasses
      ↔ effectiveOf s.currentTheme s.systemPrefersDark = Theme.dark := by
  rw [applyTheme_bodyClasses]
  split
  · simp [mem_classListAdd, *]
  · simp only [mem_classListAdd, mem_classListRemove]
    constructor
    · rintro (⟨⟨_, _⟩, h⟩ | h)
      · exact absurd rfl h
      · exact absurd h (by decide)
    · intro h; exact absurd h (by assumption)

theorem applyTheme_light_mem (s : ThemeState) :
    "manual-light" ∈ (applyTheme s).bodyClasses
      ↔ effectiveOf s.currentTheme s.systemPrefersDark ≠ Theme.dark := by
  rw [applyTheme_bodyClasses]
  split
  · simp only [mem_classListAdd, mem_classListRemove]
    constructor
    · rintro (⟨⟨_, h⟩, _⟩ | h)
      · exact absurd rfl h
      · exact absurd h (by decide)
    · intro h; exact absurd (by assumption) h
  · simp [mem_classListAdd, *]

theorem applyTheme_themeIcon_of_none (s : ThemeState) (h : s.themeIcon = none) :
    (applyTheme s).themeIcon = none := by
  simp only [applyTheme]
  rw [updateThemeTooltip_themeIcon, updateThemeIcon_of_none _ _ (by simpa using h)]
  simpa using h

theorem applyTheme_icon_chars (s : ThemeState) (ics : List String)
    (h : s.themeIcon = some ics) :
    ∃ r, (applyTheme s).themeIcon = some r
      ∧ ("fa-adjust" ∈ r ↔ s.currentTheme = Theme.auto)
      ∧ ("fa-sun" ∈ r ↔ s.currentTheme = Theme.dark)
      ∧ ("fa-moon" ∈ r ↔ s.currentTheme = Theme.light) := by
  simp only [applyTheme, updateThemeTooltip_themeIcon]
  simp only [updateThemeIcon, h]
  cases hc : s.currentTheme <;>
    simp +decide [hc, mem_classListAdd, mem_classListRemove]

theorem applyTheme_themeSwitcher_of_none (s : ThemeState) (h : s.themeSwitcher = none) :
    (applyTheme s).themeSwitcher = none := by
  simp only [applyTheme]
  rw [updateThemeTooltip_of_none]
  · rw [updateThemeIcon_themeSwitcher]; simpa using h
  · rw [updateThemeIcon_themeSwitcher]; simpa using h

theorem updateThemeTooltip_themeSwitcher_of_some (s : ThemeState) (sw : SwitcherEl)
    (h : s.themeSwitcher = some sw) :
    (updateThemeTooltip s).themeSwitcher =
      some { title := some (themeTooltip s.currentTheme)
             ariaLabel := some (themeTooltip s.currentTheme) } := by
  simp [updateThemeTooltip, h]

theorem applyTheme_tooltip (s : ThemeState) (sw : SwitcherEl)
    (h : s.themeSwitcher = some sw) :
    (applyTheme s).themeSwitcher =
      some { title := some (themeTooltip s.currentTheme)
             ariaLabel := some (themeTooltip s.currentTheme) } := by
  simp only [applyTheme]
  rw [updateThemeTooltip_themeSwitcher_of_some _ sw, updateThemeIcon_currentTheme]
  rw [updateThemeIcon_themeSwitcher]
  simpa using h

/-! ### Characterisation of `toggleTheme` -/

theorem toggleTheme_eq (s : ThemeState) :
    toggleTheme s =
      applyTheme (saveThemePreference
        { s with currentTheme := nextOf s.currentTheme s.systemPrefersDark }) := by
  cases hc : s.currentTheme <;> simp [toggleTheme, nextOf, hc]

theorem toggleTheme_currentTheme (s : ThemeState) :
    (toggleTheme s).currentTheme = nextOf s.currentTheme s.systemPrefersDark := by
  rw [toggleTheme_eq, applyTheme_currentTheme, saveThemePreference_currentTheme]

theorem toggleTheme_systemPrefersDark (s : ThemeState) :
    (toggleTheme s).systemPrefersDark = s.systemPrefersDark := by
  rw [toggleTheme_eq, applyTheme_systemPrefersDark, saveThemePreference_systemPrefersDark]

theorem toggleTheme_stored (s : ThemeState) (h : s.storage.failing = false) :
    (toggleTheme s).storage.preferredTheme
      = some (nextOf s.currentTheme s.systemPrefersDark).toStr := by
  rw [toggleTheme_eq, applyTheme_storage, saveThemePreference_stored]
  simpa using h

theorem toggleTheme_dark_mem (s : ThemeState) :
    "manual-dark" ∈ (toggleTheme s).bodyClasses
      ↔ effectiveOf (nextOf s.currentTheme s.systemPrefersDark) s.systemPrefersDark
          = Theme.dark := by
  rw [toggleTheme_eq, applyTheme_dark_mem, saveThemePreference_currentTheme,
    saveThemePreference_systemPrefersDark]

theorem toggleTheme_light_mem (s : ThemeState) :
    "manual-light" ∈ (toggleTheme s).bodyClasses
      ↔ effectiveOf (nextOf s.currentTheme s.systemPrefersDark) s.systemPrefersDark
          ≠ Theme.dark := by
  rw [toggleTheme_eq, applyTheme_light_mem, saveThemePreference_currentTheme,
    saveThemePreference_systemPrefersDark]

theorem toggleTheme_themeIcon_of_none (s : ThemeState) (h : s.themeIcon = none) :
    (toggleTheme s).themeIcon = none := by
  rw [toggleTheme_eq, applyTheme_themeIcon_of_none]
  rw [saveThemePreference_themeIcon]; simpa using h

theorem toggleTheme_themeSwitcher_of_none (s : ThemeState) (h : s.themeSwitcher = none) :
    (toggleTheme s).themeSwitcher = none := by
  rw [toggleTheme_eq, applyTheme_themeSwitcher_of_none]
  rw [saveThemePreference_themeSwitcher]; simpa using h

/-! ### Counting lemmas for the body class list -/

theorem count_classListRemove_self (cs : List String) (c : String) :
    (classListRemove cs c).count c = 0 :=
  List.count_eq_zero.mpr not_mem_classListRemove_self

theorem count_classListAdd_pair (cs : List String) (c d : String)
    (hc : c ∉ cs) (hd : d ∉ cs) (hne : d ≠ c) :
    (classListAdd cs c).count c + (classListAdd cs c).count d = 1 := by
  unfold classListAdd
  rw [if_neg hc, List.count_append, List.count_append,
    List.count_eq_zero.mpr hc, List.count_eq_zero.mpr hd,
    List.count_singleton, List.count_singleton']
  simp [hne, Ne.symm hne]

/-! ### Facts about the persistence functions -/

theorem loadThemePreference_of_valid (s : ThemeState) (t : Theme)
    (hf : s.storage.failing = false)
    (hv : s.storage.preferredTheme = some t.toStr) :
    (loadThemePreference s).currentTheme = t := by
  cases t <;> simp [loadThemePreference, hf, hv, Theme.toStr, themeValues, strToTheme]

theorem loadThemePreference_of_invalid (s : ThemeState)
    (hv : match s.storage.preferredTheme with
          | some v => v ∉ themeValues
          | none => True) :
    loadThemePreference s = s := by
  unfold loadThemePreference
  split
  · rfl
  · cases h : s.storage.preferredTheme with
    | none => simp [h]
    | some v =>
        rw [h] at hv
        simp only [h]
        rw [if_neg]
        intro hcontra
        exact hv hcontra.2

theorem getCurrentTheme_effective (s : ThemeState) :
    (getCurrentTheme s).2 = effectiveOf s.currentTheme s.systemPrefersDark := by
  rw [effectiveOf_eq]; rfl

/-! ### Concrete demonstration states -/

/-- A concrete state: mode AUTO, system prefers light, both DOM handles
present, working storage. -/
def demoState : ThemeState :=
  { currentTheme := .auto
    systemPrefersDark := false
    bodyClasses := ["page"]
    themeIcon := some ["theme-icon"]
    themeSwitcher := some { title := none, ariaLabel := none }
    storage := { preferredTheme := none, failing := false } }

/-- Like `demoState` but with the system preferring dark. -/
def darkSysState : ThemeState := { demoState with systemPrefersDark := true }

/-- Like `demoState` but with a manual LIGHT preference. -/
def manualState : ThemeState := { demoState with currentTheme := Theme.light }

/-! ### The claims -/

/-- Claim C1: `toggleTheme` advances `currentTheme` by the fixed transition
function (from AUTO the next mode is LIGHT when `systemPrefersDark` is true
and DARK when it is false; from LIGHT the next mode is DARK; from DARK the
next mode is AUTO), leaves `systemPrefersDark` unchanged, persists the new
value (when the store is operational), and re-applies the visual state for
the newly advanced mode. -/
theorem C1_toggle_transition (s : ThemeState) :
    (toggleTheme s).currentTheme = nextOf s.currentTheme s.systemPrefersDark
  ∧ (toggleTheme s).systemPrefersDark = s.systemPrefersDark
  ∧ (s.storage.failing = false →
      (toggleTheme s).storage.preferredTheme
        = some (nextOf s.currentTheme s.systemPrefersDark).toStr)
  ∧ ("manual-dark" ∈ (toggleTheme s).bodyClasses
       ↔ effectiveOf (nextOf s.currentTheme s.systemPrefersDark) s.systemPrefersDark
           = Theme.dark)
  ∧ ("manual-light" ∈ (toggleTheme s).bodyClasses
       ↔ effectiveOf (nextOf s.currentTheme s.systemPrefersDark) s.systemPrefersDark
           ≠ Theme.dark) :=
  ⟨toggleTheme_currentTheme s, toggleTheme_systemPrefersDark s,
   fun h => toggleTheme_stored s h, toggleTheme_dark_mem s, toggleTheme_light_mem s⟩

/-- Witness for C1 at a concrete state: from AUTO with a light-preferring
system, one toggle lands on DARK and stores `"dark"`. -/
theorem C1_toggle_transition_witness :
    (toggleTheme demoState).currentTheme = Theme.dark
  ∧ (toggleTheme demoState).storage.preferredTheme = some "dark" := by
  have h := C1_toggle_transition demoState
  exact ⟨h.1, h.2.2.1 (by decide)⟩

/-- Claim C2: for every state, the effective theme — both the `effective`
field of `getCurrentTheme` and the class applied by `applyTheme` — is
exactly LIGHT or DARK, never AUTO; AUTO resolves to DARK when
`systemPrefersDark` is true and to LIGHT otherwise. -/
theorem C2_effective_never_auto (s : ThemeState) :
    ((getCurrentTheme s).2 = Theme.light ∨ (getCurrentTheme s).2 = Theme.dark)
  ∧ (getCurrentTheme s).2 ≠ Theme.auto
  ∧ (s.currentTheme = Theme.auto →
      (getCurrentTheme s).2 = (if s.systemPrefersDark then Theme.dark else Theme.light))
  ∧ ("manual-dark" ∈ (applyTheme s).bodyClasses ↔ (getCurrentTheme s).2 = Theme.dark)
  ∧ ("manual-light" ∈ (applyTheme s).bodyClasses ↔ (getCurrentTheme s).2 = Theme.light) := by
  refine ⟨?_, ?_, ?_, ?_, ?_⟩
  · rw [getCurrentTheme_effective]
    cases hc : s.currentTheme <;> cases hs : s.systemPrefersDark <;>
      simp [effectiveOf, hc, hs]
  · rw [getCurrentTheme_effective]
    cases hc : s.currentTheme <;> cases hs : s.systemPrefersDark <;>
      simp [effectiveOf, hc, hs]
  · intro hc
    rw [getCurrentTheme_effective, hc]
    cases hs : s.systemPrefersDark <;> simp [effectiveOf, hs]
  · rw [getCurrentTheme_effective]
    exact applyTheme_dark_mem s
  · rw [getCurrentTheme_effective, applyTheme_light_mem s]
    cases hc : s.currentTheme <;> cases hs : s.systemPrefersDark <;>
      simp [effectiveOf, hc, hs]

/-- Witness for C2 at a concrete state: mode AUTO with a dark-preferring
system resolves to DARK. -/
theorem C2_effective_never_auto_witness :
    (getCurrentTheme darkSysState).2 = Theme.dark := by
  have h := (C2_effective_never_auto darkSysState).2.2.1 (by decide)
  simpa using h

/-- Claim C3 is false as stated: with `systemPrefersDark = false` the
trajectory from AUTO is AUTO, DARK, AUTO, DARK — the third toggle does not
return to AUTO and the cycle has period 2 (LIGHT is skipped), because from
DARK the code goes straight back to AUTO. -/
theorem C3_period_counterexample :
    demoState.currentTheme = Theme.auto
  ∧ demoState.systemPrefersDark = false
  ∧ (toggleTheme (toggleTheme (toggleTheme demoState))).currentTheme = Theme.dark := by
  refine ⟨rfl, rfl, ?_⟩
  decide

/-- Claim C3 (amended): from AUTO the mode sequence under repeated toggles
has period 3 only when the system prefers dark (AUTO, LIGHT, DARK, AUTO);
when the system prefers light the sequence is AUTO, DARK, AUTO with period
2, and three toggles land on DARK. -/
theorem C3_cycle_amended (s : ThemeState) (h : s.currentTheme = Theme.auto) :
    (s.systemPrefersDark = true →
        (toggleTheme s).currentTheme = Theme.light
      ∧ (toggleTheme (toggleTheme s)).currentTheme = Theme.dark
      ∧ (toggleTheme (toggleTheme (toggleTheme s))).currentTheme = Theme.auto)
  ∧ (s.systemPrefersDark = false →
        (toggleTheme s).currentTheme = Theme.dark
      ∧ (toggleTheme (toggleTheme s)).currentTheme = Theme.auto
      ∧ (toggleTheme (toggleTheme (toggleTheme s))).currentTheme = Theme.dark) := by
  refine ⟨fun hs => ?_, fun hs => ?_⟩ <;>
    simp [toggleTheme_currentTheme, toggleTheme_systemPrefersDark, h, hs, nextOf]

/-- Witness for the amended C3: with a dark-preferring system the cycle
AUTO, LIGHT, DARK, AUTO closes after three toggles. -/
theorem C3_cycle_amended_witness :
    (toggleTheme darkSysState).currentTheme = Theme.light
  ∧ (toggleTheme (toggleTheme (toggleTheme darkSysState))).currentTheme = Theme.auto := by
  have h := (C3_cycle_amended darkSysState (by decide)).1 (by decide)
  exact ⟨h.1, h.2.2⟩

/-- Claim C4: the system-preference-change handler never mutates
`currentTheme`: it records the new preference, re-applies the visual state
exactly when the mode is AUTO, and when the mode is manual it leaves the
body classes, icon and tooltip untouched. -/
theorem C4_system_change_frame (s : ThemeState) (m : Bool) :
    (handleSystemThemeChange s m).currentTheme = s.currentTheme
  ∧ (handleSystemThemeChange s m).systemPrefersDark = m
  ∧ (s.currentTheme ≠ Theme.auto →
       (handleSystemThemeChange s m).bodyClasses = s.bodyClasses
     ∧ (handleSystemThemeChange s m).themeIcon = s.themeIcon
     ∧ (handleSystemThemeChange s m).themeSwitcher = s.themeSwitcher)
  ∧ (s.currentTheme = Theme.auto →
       handleSystemThemeChange s m = applyTheme { s with systemPrefersDark := m }) := by
  unfold handleSystemThemeChange
  by_cases hc : s.currentTheme = Theme.auto
  · simp [hc, applyTheme_currentTheme, applyTheme_systemPrefersDark]
  · simp [hc]

/-- Witness for C4 at a concrete state: with a manual LIGHT mode, a system
preference flip changes neither the body classes nor the icon. -/
theorem C4_system_change_frame_witness :
    (handleSystemThemeChange manualState true).bodyClasses = manualState.bodyClasses
  ∧ (handleSystemThemeChange manualState true).themeIcon = manualState.themeIcon := by
  have h := (C4_system_change_frame manualState true).2.2.1 (by decide)
  exact ⟨h.1, h.2.1⟩

/-- Claim C5: persistence round-trips: saving any mode and loading it in a
fresh module (mode AUTO, same store) restores that mode; loading a stored
string that is not one of the three literals, or an absent value, leaves
the mode at the default AUTO. -/
theorem C5_persistence_roundtrip :
    (∀ (s f : ThemeState),
        s.storage.failing = false →
        f.currentTheme = Theme.auto →
        f.storage.failing = false →
        f.storage.preferredTheme = (saveThemePreference s).storage.preferredTheme →
        (loadThemePreference f).currentTheme = s.currentTheme)
  ∧ (∀ g : ThemeState,
        g.currentTheme = Theme.auto →
        (match g.storage.preferredTheme with
         | some v => v ∉ themeValues
         | none => True) →
        (loadThemePreference g).currentTheme = Theme.auto) := by
  constructor
  · intro s f hs hf hff hstore
    refine loadThemePreference_of_valid f s.currentTheme hff ?_
    rw [hstore, saveThemePreference_stored s hs]
  · intro g hg hv
    rw [loadThemePreference_of_invalid g hv, hg]

/-- Witness for C5 at concrete states: a saved DARK is restored across a
simulated reload, and a stored `"purple"` yields AUTO. -/
theorem C5_persistence_roundtrip_witness :
    (loadThemePreference
        { demoState with storage := { preferredTheme := some "dark", failing := false } }).currentTheme
      = ({ demoState with currentTheme := Theme.dark } : ThemeState).currentTheme
  ∧ (loadThemePreference
        { demoState with storage := { preferredTheme := some "purple", failing := false } }).currentTheme
      = Theme.auto :=
  ⟨C5_persistence_roundtrip.1
      { demoState with currentTheme := Theme.dark }
      { demoState with storage := { preferredTheme := some "dark", failing := false } }
      (by decide) (by decide) (by decide) (by decide),
   C5_persistence_roundtrip.2
      { demoState with storage := { preferredTheme := some "purple", failing := false } }
      (by decide) (by decide)⟩

/-- Claim C6: after an update the icon class is a pure function of the
state: `fa-adjust` exactly when the mode is AUTO, `fa-sun` exactly when the
manual mode is DARK, `fa-moon` exactly when the manual mode is LIGHT (so
exactly one of the three is present); and the tooltip, set identically on
`title` and `aria-label`, is "Switch to light mode" for AUTO, "Switch to
dark mode" for LIGHT, and "Switch to auto mode" for DARK. -/
theorem C6_icon_tooltip (s : ThemeState) (ics : List String) (sw : SwitcherEl)
    (hi : s.themeIcon = some ics) (hw : s.themeSwitcher = some sw) :
    (∃ r, (applyTheme s).themeIcon = some r
      ∧ ("fa-adjust" ∈ r ↔ s.currentTheme = Theme.auto)
      ∧ ("fa-sun" ∈ r ↔ s.currentTheme = Theme.dark)
      ∧ ("fa-moon" ∈ r ↔ s.currentTheme = Theme.light))
  ∧ (s.currentTheme = Theme.auto →
      (applyTheme s).themeSwitcher =
        some { title := some "Switch to light mode", ariaLabel := some "Switch to light mode" })
  ∧ (s.currentTheme = Theme.light →
      (applyTheme s).themeSwitcher =
        some { title := some "Switch to dark mode", ariaLabel := some "Switch to dark mode" })
  ∧ (s.currentTheme = Theme.dark →
      (applyTheme s).themeSwitcher =
        some { title := some "Switch to auto mode", ariaLabel := some "Switch to auto mode" }) := by
  refine ⟨applyTheme_icon_chars s ics hi, ?_, ?_, ?_⟩ <;>
    intro hc <;> rw [applyTheme_tooltip s sw hw, hc] <;> rfl

/-- Witness for C6 at a concrete state: mode AUTO yields the `fa-adjust`
icon and the "Switch to light mode" tooltip on both attributes. -/
theorem C6_icon_tooltip_witness :
    (applyTheme demoState).themeIcon = some ["theme-icon", "fa-adjust"]
  ∧ (applyTheme demoState).themeSwitcher =
      some { title := some "Switch to light mode", ariaLabel := some "Switch to light mode" } := by
  have h := C6_icon_tooltip demoState ["theme-icon"]
    { title := none, ariaLabel := none } (by decide) (by decide)
  exact ⟨by decide, h.2.1 (by decide)⟩

/-- Claim C7: when either required DOM handle is missing, `init` warns and
stops: it does not subscribe to the system signal, does not load the
persisted preference (the mode stays AUTO even with a stored value), does
not attach listeners, and leaves the body and store untouched; a later
`toggleTheme` still finds the icon handle unset. -/
theorem C7_init_missing_handles (env : InitEnv)
    (h : env.switcherFound = false ∨ env.iconFound = false) :
    (init env).warned = true
  ∧ (init env).subscribedToSystem = false
  ∧ (init env).listenersAttached = false
  ∧ (init env).state.currentTheme = Theme.auto
  ∧ (init env).state.systemPrefersDark = false
  ∧ (init env).state.bodyClasses = env.bodyClasses
  ∧ (init env).state.storage = env.storage
  ∧ (init env).state.themeIcon = none
  ∧ (toggleTheme (init env).state).themeIcon = none := by
  have hguard : init env =
      { state := { initialState env with
          themeSwitcher := if env.switcherFound then some env.switcherAttrs else none
          themeIcon := none }
        warned := true
        subscribedToSystem := false
        listenersAttached := false } := by
    rcases h with h | h <;> simp [init, h]
  rw [hguard]
  exact ⟨rfl, rfl, rfl, rfl, rfl, rfl, rfl, rfl,
    toggleTheme_themeIcon_of_none _ rfl⟩

/-- Witness for C7 at a concrete environment: the switcher element is
missing while the store holds `"dark"`; `init` warns, attaches nothing,
and the mode stays AUTO. -/
theorem C7_init_missing_handles_witness :
    (init { switcherFound := false, iconFound := true
            switcherAttrs := { title := none, ariaLabel := none }
            iconClasses := ["theme-icon"], hasMatchMedia := true, mediaMatches := true
            bodyClasses := ["page"]
            storage := { preferredTheme := some "dark", failing := false } }).warned = true
  ∧ (init { switcherFound := false, iconFound := true
            switcherAttrs := { title := none, ariaLabel := none }
            iconClasses := ["theme-icon"], hasMatchMedia := true, mediaMatches := true
            bodyClasses := ["page"]
            storage := { preferredTheme := some "dark", failing := false } }).listenersAttached = false
  ∧ (init { switcherFound := false, iconFound := true
            switcherAttrs := { title := none, ariaLabel := none }
            iconClasses := ["theme-icon"], hasMatchMedia := true, mediaMatches := true
            bodyClasses := ["page"]
            storage := { preferredTheme := some "dark", failing := false } }).state.currentTheme = Theme.auto := by
  have h := C7_init_missing_handles
    { switcherFound := false, iconFound := true
      switcherAttrs := { title := none, ariaLabel := none }
      iconClasses := ["theme-icon"], hasMatchMedia := true, mediaMatches := true
      bodyClasses := ["page"]
      storage := { preferredTheme := some "dark", failing := false } }
    (Or.inl rfl)
  exact ⟨h.1, h.2.2.1, h.2.2.2.1⟩

/-- Claim C8: a failing persistence store is swallowed inside the load and
save helpers (the state is returned unchanged, nothing propagates), and
`toggleTheme` still advances the mode and re-applies the visual state for
the new mode even though the save failed and the store is untouched. -/
theorem C8_storage_failure_swallowed (s : ThemeState) (h : s.storage.failing = true) :
    saveThemePreference s = s
  ∧ loadThemePreference s = s
  ∧ (toggleTheme s).currentTheme = nextOf s.currentTheme s.systemPrefersDark
  ∧ (toggleTheme s).storage = s.storage
  ∧ ("manual-dark" ∈ (toggleTheme s).bodyClasses
       ↔ effectiveOf (nextOf s.currentTheme s.systemPrefersDark) s.systemPrefersDark
           = Theme.dark)
  ∧ ("manual-light" ∈ (toggleTheme s).bodyClasses
       ↔ effectiveOf (nextOf s.currentTheme s.systemPrefersDark) s.systemPrefersDark
           ≠ Theme.dark) := by
  refine ⟨by simp [saveThemePreference, h], by simp [loadThemePreference, h],
    toggleTheme_currentTheme s, ?_, toggleTheme_dark_mem s, toggleTheme_light_mem s⟩
  rw [toggleTheme_eq, applyTheme_storage]
  simp [saveThemePreference, h]

/-- Witness for C8 at a concrete state: with a throwing store, one toggle
from AUTO (system light) still lands on DARK and still applies the
`manual-dark` body class, and the store is untouched. -/
theorem C8_storage_failure_swallowed_witness :
    saveThemePreference { demoState with storage := { preferredTheme := none, failing := true } }
      = { demoState with storage := { preferredTheme := none, failing := true } }
  ∧ "manual-dark" ∈
      (toggleTheme { demoState with storage := { preferredTheme := none, failing := true } }).bodyClasses := by
  have h := C8_storage_failure_swallowed
    { demoState with storage := { preferredTheme := none, failing := true } } rfl
  exact ⟨h.1, h.2.2.2.2.1.mpr (by decide)⟩

/-- Claim C9: `applyTheme` removes both theme classes from the body and
adds exactly the one matching the effective theme: afterwards the body
carries `manual-dark` exactly when the effective theme is DARK,
`manual-light` exactly otherwise, and in total exactly one occurrence of
the two classes. -/
theorem C9_body_exactly_one (s : ThemeState) :
    ("manual-dark" ∈ (applyTheme s).bodyClasses ↔ (getCurrentTheme s).2 = Theme.dark)
  ∧ ("manual-light" ∈ (applyTheme s).bodyClasses ↔ ¬(getCurrentTheme s).2 = Theme.dark)
  ∧ ((applyTheme s).bodyClasses.count "manual-dark"
      + (applyTheme s).bodyClasses.count "manual-light" = 1) := by
  refine ⟨by rw [getCurrentTheme_effective]; exact applyTheme_dark_mem s,
          by rw [getCurrentTheme_effective]; exact applyTheme_light_mem s, ?_⟩
  rw [applyTheme_bodyClasses]
  have hd : "manual-dark"
      ∉ classListRemove (classListRemove s.bodyClasses "manual-light") "manual-dark" :=
    not_mem_classListRemove_self
  have hl : "manual-light"
      ∉ classListRemove (classListRemove s.bodyClasses "manual-light") "manual-dark" := by
    intro hmem
    exact not_mem_classListRemove_self (mem_classListRemove.mp hmem).1
  split
  · exact count_classListAdd_pair _ _ _ hd hl (by decide)
  · rw [Nat.add_comm]
    exact count_classListAdd_pair _ _ _ hl hd (by decide)

/-- Claim C10: with both DOM handles unset, the exported `toggleTheme` is
not a state no-op: it still advances the mode, still writes the store
(when operational), still rewrites the body's theme class; only the icon
and tooltip updates are skipped, each a no-op on its own null guard. -/
theorem C10_toggle_without_handles (s : ThemeState)
    (hi : s.themeIcon = none) (hw : s.themeSwitcher = none) :
    (toggleTheme s).currentTheme = nextOf s.currentTheme s.systemPrefersDark
  ∧ (s.storage.failing = false →
      (toggleTheme s).storage.preferredTheme
        = some (nextOf s.currentTheme s.systemPrefersDark).toStr)
  ∧ ("manual-dark" ∈ (toggleTheme s).bodyClasses
       ↔ effectiveOf (nextOf s.currentTheme s.systemPrefersDark) s.systemPrefersDark
           = Theme.dark)
  ∧ (toggleTheme s).themeIcon = none
  ∧ (toggleTheme s).themeSwitcher = none
  ∧ (∀ t : ThemeState, t.themeIcon = none → ∀ e, updateThemeIcon t e = t)
  ∧ (∀ t : ThemeState, t.themeSwitcher = none → updateThemeTooltip t = t) :=
  ⟨toggleTheme_currentTheme s, fun h => toggleTheme_stored s h,
   toggleTheme_dark_mem s, toggleTheme_themeIcon_of_none s hi,
   toggleTheme_themeSwitcher_of_none s hw,
   fun t ht e => updateThemeIcon_of_none t e ht,
   fun t ht => updateThemeTooltip_of_none t ht⟩

/-- Witness for C10 at a concrete state: both handles unset, one toggle
from AUTO (system light) lands on DARK, stores `"dark"`, and leaves the
icon handle unset. -/
theorem C10_toggle_without_handles_witness :
    (toggleTheme { demoState with themeIcon := none, themeSwitcher := none }).currentTheme
      = Theme.dark
  ∧ (toggleTheme { demoState with themeIcon := none, themeSwitcher := none }).storage.preferredTheme
      = some "dark"
  ∧ (toggleTheme { demoState with themeIcon := none, themeSwitcher := none }).themeIcon = none := by
  have h := C10_toggle_without_handles
    { demoState with themeIcon := none, themeSwitcher := none } rfl rfl
  exact ⟨h.1, h.2.1 rfl, h.2.2.2.1⟩

end ThemeSwitcher
